import Mathlib

/-!
Verification of the PromptsGenie python prompt generator
(`prompt_generator.py`, `app.py`, `cli.py`) against its specification.

Strings are modelled as `List Char`; Python `None`-able strings as
`Option (List Char)`.  Python truthiness of a string (`if s:`) is `s ≠ []`
(for an `Option`, `some s` with `s ≠ []`).  The Anthropic client call
`self.client.messages.create(...)` is modelled as a function parameter
`provider : ApiRequest → Except (List Char) ProviderResponse`: `.error e`
models a raised exception whose `str()` is `e`, `.ok r` a returned response
object.  The `try/except` of `generate_prompt` is the `match` on that
result; totality of the Lean functions models that no exception escapes.
-/

set_option maxRecDepth 10000

namespace PromptsGenie

/-- Python `str.strip()` restricted to whitespace. -/
def pyStrip (s : List Char) : List Char :=
  ((s.dropWhile Char.isWhitespace).reverse.dropWhile Char.isWhitespace).reverse

/-- Python `str.lower()`. -/
def pyLower (s : List Char) : List Char := s.map Char.toLower

/-- Python `dict` lookup on an association list (`k in d` / `d[k]` / `d.get`). -/
def pyDictGet (k : List Char) : List (List Char × List Char) → Option (List Char)
  | [] => none
  | (k', v) :: rest => if k' = k then some v else pyDictGet k rest

/-! ### The four template texts of `_build_system_prompt` (verbatim). -/

def generalText : List Char :=
  ("You are an expert prompt engineer. Your task is to create clear, effective, and well-structured prompts based on the user\x27s requirements. \n\nFocus on:\n- Clarity and specificity\n- Proper structure and formatting\n- Including relevant context and constraints\n- Making the prompt actionable and results-oriented").toList

def creativeText : List Char :=
  ("You are a creative prompt specialist. Your task is to generate imaginative and inspiring prompts that encourage creative thinking and artistic expression.\n\nFocus on:\n- Vivid imagery and descriptive language\n- Emotional resonance and atmosphere\n- Creative constraints that spark innovation\n- Open-ended possibilities for exploration").toList

def technicalText : List Char :=
  ("You are a technical prompt engineer specializing in programming, development, and technical documentation prompts.\n\nFocus on:\n- Technical accuracy and precision\n- Clear specifications and requirements\n- Best practices and standards\n- Actionable technical instructions").toList

def imageText : List Char :=
  ("You are an expert in creating prompts for AI image generation. Your task is to craft detailed, specific prompts that will produce high-quality visual results.\n\nFocus on:\n- Visual composition and style\n- Lighting, color, and atmosphere\n- Technical camera/art terminology\n- Specific details about subjects and scenes").toList

/-- The `base_prompts` dict literal of `_build_system_prompt`. -/
def base_prompts : List (List Char × List Char) :=
  [("general".toList, generalText),
   ("creative".toList, creativeText),
   ("technical".toList, technicalText),
   ("image".toList, imageText)]

/-- Embedding of `PromptGenerator._build_system_prompt`:
`base_prompts.get(prompt_type, base_prompts["general"])`, then
`if custom_instructions: system_prompt += f"\n\nAdditional instructions: {ci}"`. -/
def build_system_prompt (prompt_type : List Char)
    (custom_instructions : Option (List Char)) : List Char :=
  let system_prompt := (pyDictGet prompt_type base_prompts).getD generalText
  match custom_instructions with
  | some ci =>
      if ci = [] then system_prompt
      else system_prompt ++ "\n\nAdditional instructions: ".toList ++ ci
  | none => system_prompt

/-- Embedding of `PromptGenerator._build_user_message`:
`f"Please create a prompt based on this request: {user_input}"`, then
`if context: message += f"\n\nAdditional context: {context}"`. -/
def build_user_message (user_input : List Char)
    (context : Option (List Char)) : List Char :=
  let message := "Please create a prompt based on this request: ".toList ++ user_input
  match context with
  | some c =>
      if c = [] then message
      else message ++ "\n\nAdditional context: ".toList ++ c
  | none => message

/-! ### Data model of `prompt_generator.py` -/

/-- The `PromptConfig` dataclass (temperature is a float constant never branched
on by any code under verification, so it is not carried). -/
structure PromptConfig where
  model : List Char := "claude-3-5-sonnet-20241022".toList
  max_tokens : Nat := 2048
deriving DecidableEq, Repr

/-- Provider usage counters (`response.usage`). -/
structure Usage where
  input_tokens : Nat
  output_tokens : Nat
deriving DecidableEq, Repr

/-- The provider response object: `content` is the list of text blocks
(`none`/`some []` are both falsy for `if response.content`), `usage` is
`some` exactly when the response has a usage attribute (`hasattr`). -/
structure ProviderResponse where
  content : Option (List (List Char))
  usage : Option Usage
deriving DecidableEq, Repr

/-- The payload handed to `self.client.messages.create`. -/
structure ApiRequest where
  model : List Char
  max_tokens : Nat
  system : List Char
  user_message : List Char
deriving DecidableEq, Repr

/-- The `"metadata"` dict built on the success path of `generate_prompt`. -/
structure GenMetadata where
  model : List Char
  prompt_type : List Char
  tokens_used : Option Nat
  input_tokens : Option Nat
  output_tokens : Option Nat
deriving DecidableEq, Repr

/-- The value stored under the `"metadata"` key: `generate_prompt` stores a
generation-metadata dict, `analyze_image_for_prompt` stores
`{"analysis_type": ...}`. -/
inductive MetaVal where
  | gen (m : GenMetadata)
  | analysis (analysis_type : List Char)
deriving DecidableEq, Repr

/-- The result dict `{"success", "prompt", "error", "metadata"}`; a key that
is absent or `None` in the Python dict is `none`. -/
structure GenResult where
  success : Bool
  prompt : Option (List Char)
  error : Option (List Char)
  metadata : Option MetaVal
deriving DecidableEq, Repr

/-- The argument record of the `self.client.messages.create(...)` call in
`generate_prompt`: the `system_prompt` and `user_message` locals become the
`system` and `messages` keyword arguments. -/
def apiPayload (cfg : PromptConfig) (user_input : List Char)
    (context : Option (List Char)) (prompt_type : List Char)
    (custom_instructions : Option (List Char)) : ApiRequest :=
  { model := cfg.model, max_tokens := cfg.max_tokens,
    system := build_system_prompt prompt_type custom_instructions,
    user_message := build_user_message user_input context }

/-- Embedding of `PromptGenerator.generate_prompt`.  Here `provider` models
`self.client.messages.create`; `.error e` is a raised exception with
`str(e) = e`, caught by the `except` clause. -/
def generate_prompt (cfg : PromptConfig)
    (provider : ApiRequest → Except (List Char) ProviderResponse)
    (user_input : List Char) (context : Option (List Char))
    (prompt_type : List Char) (custom_instructions : Option (List Char)) :
    GenResult :=
  match provider (apiPayload cfg user_input context prompt_type
      custom_instructions) with
  | .ok response =>
      let generated_prompt :=
        match response.content with
        | some (b :: _) => b
        | some [] => []
        | none => []
      { success := true
        prompt := some generated_prompt
        error := none
        metadata := some (.gen
          { model := cfg.model
            prompt_type := prompt_type
            tokens_used := response.usage.map fun u =>
              u.input_tokens + u.output_tokens
            input_tokens := response.usage.map Usage.input_tokens
            output_tokens := response.usage.map Usage.output_tokens }) }
  | .error e =>
      { success := false, prompt := none, error := some e, metadata := none }

/-- Embedding of `PromptGenerator.analyze_image_for_prompt` (a placeholder in source). -/
def analyze_image_for_prompt (_image_path : List Char)
    (analysis_type : List Char) : GenResult :=
  { success := false
    prompt := none
    error := some "Image analysis not yet implemented".toList
    metadata := some (.analysis analysis_type) }

/-! ### `app.py`: the `/generate-prompt` handler -/

/-- A parsed JSON body: `none` when `request.get_json()` returns `None`,
otherwise the key/value pairs of the object (string values, as the front end
sends). -/
abbrev JsonBody := Option (List (List Char × List Char))

/-- An HTTP reply: status code and JSON body (error replies reuse the
result-dict shape with only `success` and `error` set). -/
abbrev HttpReply := Nat × GenResult

/-- Embedding of `generate_prompt_api` in `app.py`.  Here `generatorOk` is
`generator is not None`; `cfg`/`provider` are the config and client of the
module-level generator. -/
def generate_prompt_api (generatorOk : Bool) (cfg : PromptConfig)
    (provider : ApiRequest → Except (List Char) ProviderResponse)
    (data : JsonBody) : HttpReply :=
  if generatorOk = false then
    (500, { success := false, prompt := none,
            error := some "Prompt generator not initialized. Check your API key.".toList,
            metadata := none })
  else
    match data with
    | none =>
        (400, { success := false, prompt := none,
                error := some "Missing required field: user_input".toList,
                metadata := none })
    | some obj =>
        if obj = [] then
          (400, { success := false, prompt := none,
                  error := some "Missing required field: user_input".toList,
                  metadata := none })
        else
          match pyDictGet "user_input".toList obj with
          | none =>
              (400, { success := false, prompt := none,
                      error := some "Missing required field: user_input".toList,
                      metadata := none })
          | some user_input =>
              (200, generate_prompt cfg provider user_input
                (pyDictGet "context".toList obj)
                ((pyDictGet "prompt_type".toList obj).getD "general".toList)
                (pyDictGet "custom_instructions".toList obj))

/-! ### `cli.py` -/

/-- One iteration of interactive input (the four `input()` answers)
together with the provider behaviour for the API call of that iteration. -/
structure Iteration where
  raw_input : List Char
  type_choice : List Char
  context_raw : List Char
  custom_raw : List Char
  provider : ApiRequest → Except (List Char) ProviderResponse

/-- The `prompt_types` menu dict of `interactive_mode`. -/
def cli_prompt_types : List (List Char × List Char) :=
  [("1".toList, "general".toList), ("2".toList, "creative".toList),
   ("3".toList, "technical".toList), ("4".toList, "image".toList)]

/-- The `while True` loop body of `interactive_mode`: returns the
generation results printed during the session, stopping at a quit word. -/
def interactive_loop (cfg : PromptConfig) : List Iteration → List GenResult
  | [] => []
  | it :: rest =>
      let user_input := pyStrip it.raw_input
      if pyLower user_input = "quit".toList ∨ pyLower user_input = "exit".toList ∨
          pyLower user_input = "q".toList then []
      else if user_input = [] then interactive_loop cfg rest
      else
        let prompt_type :=
          (pyDictGet (pyStrip it.type_choice) cli_prompt_types).getD "general".toList
        let context :=
          let c := pyStrip it.context_raw
          if c = [] then none else some c
        let custom_instructions :=
          let c := pyStrip it.custom_raw
          if c = [] then none else some c
        generate_prompt cfg it.provider user_input context prompt_type
            custom_instructions :: interactive_loop cfg rest

/-- Embedding of `interactive_mode`: a failed `PromptGenerator()` construction prints and
returns (no results); otherwise the loop runs. The function returning
models `interactive_mode` returning `None` in every case. -/
def interactive_mode (initResult : Except (List Char) Unit)
    (cfg : PromptConfig) (session : List Iteration) : List GenResult :=
  match initResult with
  | .error _ => []
  | .ok () => interactive_loop cfg session

/-- Embedding of `single_prompt_mode`: returns the exit code. -/
def single_prompt_mode (initResult : Except (List Char) Unit)
    (cfg : PromptConfig)
    (provider : ApiRequest → Except (List Char) ProviderResponse)
    (input : List Char) (context : Option (List Char))
    (ptype : List Char) (instructions : Option (List Char)) : Nat :=
  match initResult with
  | .error _ => 1
  | .ok () =>
      let result := generate_prompt cfg provider input context ptype instructions
      if result.success then 0 else 1

/-- Embedding of `main` in `cli.py`: returns the process exit code.  Here
`env_key` is the ANTHROPIC_API_KEY value from `os.getenv` (`none` if
unset) and `args_input` is
`args.input`.  `if args.input:` is truthy only for a non-empty string. -/
def cli_main (env_key : Option (List Char)) (args_input : Option (List Char))
    (args_context : Option (List Char)) (args_type : List Char)
    (args_instructions : Option (List Char))
    (initResult : Except (List Char) Unit) (cfg : PromptConfig)
    (provider : ApiRequest → Except (List Char) ProviderResponse)
    (session : List Iteration) : Nat :=
  if env_key = none ∨ env_key = some [] then 1
  else
    match args_input with
    | some input =>
        if input = [] then
          let _ := interactive_mode initResult cfg session
          0
        else
          single_prompt_mode initResult cfg provider input args_context
            args_type args_instructions
    | none =>
        let _ := interactive_mode initResult cfg session
        0

/-! ### Substring occurrences (for the message-composition claims) -/

/-- Pattern `pat` occurs in `s` starting at index `i`. -/
def occursAt (s pat : List Char) (i : Nat) : Prop :=
  (s.drop i).take pat.length = pat

instance (s pat : List Char) (i : Nat) : Decidable (occursAt s pat i) := by
  unfold occursAt; exact inferInstance

/-- String `s` contains `pat` as a contiguous substring. -/
def containsSub (s pat : List Char) : Prop := ∃ i, occursAt s pat i

/-- Bounded (boolean) version of `containsSub`. -/
def containsSubB (s pat : List Char) : Bool :=
  (List.range (s.length + 1)).any fun i => decide (occursAt s pat i)

instance (s pat : List Char) : Decidable (containsSub s pat) :=
  decidable_of_iff (containsSubB s pat = true) (by
    constructor
    · intro h
      obtain ⟨i, _, hi⟩ := List.any_eq_true.mp h
      exact ⟨i, of_decide_eq_true hi⟩
    · rintro ⟨i, hi⟩
      rcases eq_or_ne pat [] with hp | hp
      · exact List.any_eq_true.mpr ⟨0, List.mem_range.mpr (by omega),
          decide_eq_true (by simp [occursAt, hp])⟩
      · refine List.any_eq_true.mpr ⟨i, List.mem_range.mpr ?_, decide_eq_true hi⟩
        by_contra hge
        push_neg at hge
        have h2 := hi
        unfold occursAt at h2
        rw [List.drop_eq_nil_of_le (by omega), List.take_nil] at h2
        exact hp h2.symm)

/-- The fixed request line prefix of `_build_user_message`. -/
def reqLine : List Char := "Please create a prompt based on this request: ".toList

/-- The probe substring of the message-composition property. -/
def ctxPat : List Char := "Additional context".toList

/-- The suffix appended by `_build_user_message` when context is truthy,
rebracketed so that `ctxPat` is exposed: `"\n\nAdditional context: " ++ c`. -/
def ctxTail (c : List Char) : List Char :=
  '\n' :: '\n' :: (ctxPat ++ ([':', ' '] ++ c))

lemma occursAt_getElem {s pat : List Char} {i : Nat} (h : occursAt s pat i)
    {j : Nat} (hj : j < pat.length) : pat[j]? = s[i + j]? := by
  unfold occursAt at h
  conv_lhs => rw [← h]
  rw [List.getElem?_take_of_lt hj, List.getElem?_drop]

lemma occursAt_head {s pat : List Char} {i : Nat} (hpat : 0 < pat.length)
    (h : occursAt s pat i) : s[i]? = pat[0]? := by
  have := occursAt_getElem h hpat
  simpa using this.symm

lemma occursAt_append_left {a b pat : List Char} {i : Nat}
    (hle : i + pat.length ≤ a.length) :
    occursAt (a ++ b) pat i ↔ occursAt a pat i := by
  unfold occursAt
  rw [List.drop_append_eq_append_drop]
  have h1 : i - a.length = 0 := by omega
  rw [h1, List.drop_zero, List.take_append_eq_append_take]
  have h2 : pat.length - (a.drop i).length = 0 := by
    rw [List.length_drop]; omega
  rw [h2, List.take_zero, List.append_nil]

lemma occursAt_append_right {a b pat : List Char} {i : Nat}
    (hge : a.length ≤ i) :
    occursAt (a ++ b) pat i ↔ occursAt b pat (i - a.length) := by
  unfold occursAt
  rw [List.drop_append_eq_append_drop, List.drop_eq_nil_of_le hge,
    List.nil_append]

lemma occursAt_straddle {a b pat : List Char} {i : Nat}
    (h : occursAt (a ++ b) pat i) (h1 : i < a.length)
    (h2 : a.length < i + pat.length) :
    ∃ ch, b[0]? = some ch ∧ ch ∈ pat := by
  have hj : a.length - i < pat.length := by omega
  have hq := occursAt_getElem h hj
  have hidx : i + (a.length - i) = a.length := by omega
  rw [hidx, List.getElem?_append_right (Nat.le_refl _), Nat.sub_self] at hq
  obtain ⟨ch, hch⟩ : ∃ ch, pat[a.length - i]? = some ch :=
    ⟨_, List.getElem?_eq_getElem hj⟩
  exact ⟨ch, by rw [← hq]; exact hch, List.getElem?_mem hch⟩

/-- The occurrence of `pat` that sits exactly after `a`. -/
lemma occursAt_canonical (a pat rest : List Char) :
    occursAt (a ++ (pat ++ rest)) pat a.length := by
  unfold occursAt
  rw [List.drop_left, List.take_left]

lemma build_user_message_none (u : List Char) :
    build_user_message u none = reqLine ++ u := rfl

lemma build_user_message_some {u c : List Char} (h : c ≠ []) :
    build_user_message u (some c) = (reqLine ++ u) ++ ctxTail c := by
  show (if c = [] then reqLine ++ u
        else reqLine ++ u ++ "\n\nAdditional context: ".toList ++ c) = _
  rw [if_neg h, List.append_assoc]
  congr 1

/-- An occurrence of `ctxPat` cannot start inside the request-line prefix:
`reqLine` holds no uppercase `A`, the first character of `ctxPat`. -/
lemma no_occurrence_in_reqLine {tail : List Char} {i : Nat}
    (hi : occursAt (reqLine ++ tail) ctxPat i) (hlt : i < reqLine.length) :
    False := by
  have hhead := occursAt_head (by decide) hi
  rw [List.getElem?_append_left hlt] at hhead
  have hmem : ('A' : Char) ∈ reqLine :=
    List.getElem?_mem (hhead.trans (by decide))
  exact absurd hmem (by decide)

/-- If the user input does not contain `"Additional context"`, neither does
the composed message without context. -/
lemma userMessage_none_not_contains {u : List Char}
    (hu : ¬ containsSub u ctxPat) :
    ¬ containsSub (build_user_message u none) ctxPat := by
  rw [build_user_message_none]
  rintro ⟨i, hi⟩
  rcases Nat.lt_or_ge i reqLine.length with hlt | hge
  · exact no_occurrence_in_reqLine hi hlt
  · exact hu ⟨i - reqLine.length, (occursAt_append_right hge).mp hi⟩

/-- An occurrence of `ctxPat` inside `ctxTail c` can only be the canonical
one at index 2, provided `c` itself does not contain `ctxPat`. -/
lemma ctxTail_occurrence {c : List Char} (hc : ¬ containsSub c ctxPat)
    {j : Nat} (h : occursAt (ctxTail c) ctxPat j) : j = 2 := by
  by_cases hj2 : j < 2
  · exfalso
    have hhead := occursAt_head (by decide) h
    interval_cases j
    · rw [show (ctxTail c)[0]? = some '\n' from rfl] at hhead
      exact absurd hhead (by decide)
    · rw [show (ctxTail c)[1]? = some '\n' from rfl] at hhead
      exact absurd hhead (by decide)
  push_neg at hj2
  rw [show ctxTail c = ['\n', '\n'] ++ (ctxPat ++ ([':', ' '] ++ c)) from rfl]
    at h
  have h2 : occursAt (ctxPat ++ ([':', ' '] ++ c)) ctxPat (j - 2) := by
    have := (occursAt_append_right (a := ['\n', '\n'])
      (by simpa using hj2)).mp h
    simpa using this
  by_cases hk0 : j - 2 = 0
  · omega
  exfalso
  by_cases hk18 : j - 2 < ctxPat.length
  · obtain ⟨ch, hch, hmem⟩ := occursAt_straddle h2 hk18 (by omega)
    rw [show ([':', ' '] ++ c)[0]? = some ':' from rfl] at hch
    rw [← Option.some.inj hch] at hmem
    exact absurd hmem (by decide)
  push_neg at hk18
  have h3 : occursAt ([':', ' '] ++ c) ctxPat (j - 2 - ctxPat.length) :=
    (occursAt_append_right hk18).mp h2
  generalize hm : j - 2 - ctxPat.length = m at h3
  by_cases hm2 : m < 2
  · have hhead := occursAt_head (by decide) h3
    interval_cases m
    · rw [show ([':', ' '] ++ c)[0]? = some ':' from rfl] at hhead
      exact absurd hhead (by decide)
    · rw [show ([':', ' '] ++ c)[1]? = some ' ' from by simp] at hhead
      exact absurd hhead (by decide)
  push_neg at hm2
  have h4 : occursAt c ctxPat (m - 2) := by
    have := (occursAt_append_right (a := [':', ' '])
      (by simpa using hm2)).mp h3
    simpa using this
  exact hc ⟨_, h4⟩

/-- With a truthy context, `"Additional context"` occurs in the composed
message exactly at the index two characters past the request line, provided
neither the user input nor the context contains it. -/
lemma userMessage_some_unique {u c : List Char}
    (hu : ¬ containsSub u ctxPat) (hc : ¬ containsSub c ctxPat)
    (hcne : c ≠ []) (i : Nat) :
    occursAt (build_user_message u (some c)) ctxPat i ↔
      i = (reqLine ++ u).length + 2 := by
  rw [build_user_message_some hcne]
  constructor
  · intro hi
    by_cases h1 : i < reqLine.length
    · rw [List.append_assoc] at hi
      exact (no_occurrence_in_reqLine hi h1).elim
    push_neg at h1
    by_cases h2 : i + ctxPat.length ≤ (reqLine ++ u).length
    · have hA : occursAt (reqLine ++ u) ctxPat i :=
        (occursAt_append_left h2).mp hi
      have hu' : occursAt u ctxPat (i - reqLine.length) :=
        (occursAt_append_right h1).mp hA
      exact ((hu ⟨_, hu'⟩).elim)
    push_neg at h2
    by_cases h3 : i < (reqLine ++ u).length
    · obtain ⟨ch, hch, hmem⟩ := occursAt_straddle hi h3 h2
      rw [show (ctxTail c)[0]? = some '\n' from rfl] at hch
      rw [← Option.some.inj hch] at hmem
      exact absurd hmem (by decide)
    push_neg at h3
    have hiB : occursAt (ctxTail c) ctxPat (i - (reqLine ++ u).length) :=
      (occursAt_append_right h3).mp hi
    have := ctxTail_occurrence hc hiB
    omega
  · rintro rfl
    rw [show (reqLine ++ u) ++ ctxTail c =
        ((reqLine ++ u) ++ ['\n', '\n']) ++ (ctxPat ++ ([':', ' '] ++ c))
      from by simp [ctxTail, List.append_assoc]]
    have h := occursAt_canonical ((reqLine ++ u) ++ ['\n', '\n']) ctxPat
      ([':', ' '] ++ c)
    simpa using h

/-! ### Claim theorems -/

/-- C1 (counterexample): the claim demands a non-empty error message for
every failing invocation, but `generate_prompt` returns `str(e)` verbatim;
a raised exception whose message is empty (e.g. `Exception()`) yields a
Failure whose error string is empty. -/
theorem C1_empty_error_message_counterexample :
    (generate_prompt {} (fun _ => .error []) "hi".toList none
      "general".toList none).success = false ∧
    (generate_prompt {} (fun _ => .error []) "hi".toList none
      "general".toList none).error = some [] :=
  ⟨rfl, rfl⟩

/-- C1 (amended): when the provider call raises an error `e`, every
invocation of `generate_prompt` returns the Failure result whose error
message is exactly `e` — hence non-empty whenever `e` is non-empty — and
(being a total function) never propagates an unhandled exception. -/
theorem C1_provider_error_yields_failure (cfg : PromptConfig)
    (provider : ApiRequest → Except (List Char) ProviderResponse)
    (u : List Char) (ctx : Option (List Char)) (pt : List Char)
    (ci : Option (List Char)) (e : List Char)
    (h : provider (apiPayload cfg u ctx pt ci) = .error e) :
    generate_prompt cfg provider u ctx pt ci =
      { success := false, prompt := none, error := some e,
        metadata := none } ∧
    (e ≠ [] → (generate_prompt cfg provider u ctx pt ci).error ≠ some []) := by
  have h1 : generate_prompt cfg provider u ctx pt ci =
      { success := false, prompt := none, error := some e,
        metadata := none } := by
    unfold generate_prompt
    rw [h]
  exact ⟨h1, fun hne => by rw [h1]; simpa using hne⟩

theorem C1_provider_error_yields_failure_witness :
    ((fun _ : ApiRequest =>
        (.error "boom".toList : Except (List Char) ProviderResponse))
      (apiPayload {} "hi".toList none "general".toList none) =
        .error "boom".toList) ∧
    (generate_prompt {} (fun _ => .error "boom".toList) "hi".toList none
        "general".toList none =
      { success := false, prompt := none, error := some "boom".toList,
        metadata := none } ∧
    ("boom".toList ≠ [] →
      (generate_prompt {} (fun _ => .error "boom".toList) "hi".toList none
        "general".toList none).error ≠ some [])) :=
  ⟨rfl, C1_provider_error_yields_failure {} _ _ _ _ _ _ rfl⟩

/-- C2: a successful provider response with a usage field yields Success
metadata whose `input_tokens`/`output_tokens` are the counters reported by
the provider
and whose `tokens_used` is their exact sum; a successful response lacking
usage yields all three token fields `none`. -/
theorem C2_usage_metadata (cfg : PromptConfig)
    (provider : ApiRequest → Except (List Char) ProviderResponse)
    (u : List Char) (ctx : Option (List Char)) (pt : List Char)
    (ci : Option (List Char)) (resp : ProviderResponse)
    (h : provider (apiPayload cfg u ctx pt ci) = .ok resp) :
    (∀ uu : Usage, resp.usage = some uu →
      (generate_prompt cfg provider u ctx pt ci).metadata =
        some (MetaVal.gen
          { model := cfg.model, prompt_type := pt,
            tokens_used := some (uu.input_tokens + uu.output_tokens),
            input_tokens := some uu.input_tokens,
            output_tokens := some uu.output_tokens })) ∧
    (resp.usage = none →
      (generate_prompt cfg provider u ctx pt ci).metadata =
        some (MetaVal.gen
          { model := cfg.model, prompt_type := pt,
            tokens_used := none, input_tokens := none,
            output_tokens := none })) := by
  constructor
  · intro uu huu
    unfold generate_prompt
    rw [h]
    simp [huu]
  · intro huu
    unfold generate_prompt
    rw [h]
    simp [huu]

theorem C2_usage_metadata_witness :
    ((fun _ : ApiRequest =>
        (.ok { content := some ["text".toList], usage := some ⟨10, 20⟩ } :
          Except (List Char) ProviderResponse))
      (apiPayload {} "hi".toList none "general".toList none) =
        .ok { content := some ["text".toList], usage := some ⟨10, 20⟩ }) ∧
    (({ content := some ["text".toList],
        usage := some ⟨10, 20⟩ } : ProviderResponse).usage = some ⟨10, 20⟩) ∧
    (generate_prompt {}
        (fun _ => .ok { content := some ["text".toList],
                        usage := some ⟨10, 20⟩ })
        "hi".toList none "general".toList none).metadata =
      some (MetaVal.gen
        { model := ({} : PromptConfig).model,
          prompt_type := "general".toList,
          tokens_used := some 30, input_tokens := some 10,
          output_tokens := some 20 }) :=
  ⟨rfl, rfl,
    (C2_usage_metadata {} _ _ _ _ _ _ rfl).1 ⟨10, 20⟩ rfl⟩

/-- C3: the four known categories resolve to non-empty, pairwise-distinct
base texts, and every unknown category string resolves to exactly the
`"general"` text, never an error. -/
theorem C3_template_catalog :
    (generalText ≠ [] ∧ creativeText ≠ [] ∧ technicalText ≠ [] ∧
      imageText ≠ []) ∧
    (build_system_prompt "general".toList none = generalText ∧
     build_system_prompt "creative".toList none = creativeText ∧
     build_system_prompt "technical".toList none = technicalText ∧
     build_system_prompt "image".toList none = imageText) ∧
    (generalText ≠ creativeText ∧ generalText ≠ technicalText ∧
     generalText ≠ imageText ∧ creativeText ≠ technicalText ∧
     creativeText ≠ imageText ∧ technicalText ≠ imageText) ∧
    (∀ t : List Char, t ≠ "general".toList → t ≠ "creative".toList →
      t ≠ "technical".toList → t ≠ "image".toList →
      build_system_prompt t none = build_system_prompt "general".toList none) := by
  refine ⟨by decide, by decide, by decide, ?_⟩
  intro t h1 h2 h3 h4
  rw [show build_system_prompt "general".toList none = generalText from
    by decide]
  show (pyDictGet t base_prompts).getD generalText = generalText
  simp only [base_prompts, pyDictGet]
  rw [if_neg (fun hh => h1 hh.symm), if_neg (fun hh => h2 hh.symm),
    if_neg (fun hh => h3 hh.symm), if_neg (fun hh => h4 hh.symm)]
  rfl

theorem C3_template_catalog_witness :
    ("story".toList ≠ "general".toList ∧
     "story".toList ≠ "creative".toList ∧
     "story".toList ≠ "technical".toList ∧
     "story".toList ≠ "image".toList) ∧
    build_system_prompt "story".toList none =
      build_system_prompt "general".toList none :=
  ⟨⟨by decide, by decide, by decide, by decide⟩,
    C3_template_catalog.2.2.2 "story".toList (by decide) (by decide)
      (by decide) (by decide)⟩

/-- C4: with the generator initialized, every POSTed JSON body whose
`user_input` key is missing (including a `None` body and the empty object)
yields HTTP 400 with `{success: false, error: "Missing required field:
user_input"}`, independently of the provider — so no provider call is
attempted. -/
theorem C4_missing_user_input_rejected (cfg : PromptConfig)
    (provider provider2 : ApiRequest → Except (List Char) ProviderResponse)
    (data : JsonBody)
    (h : data = none ∨ data = some [] ∨
      ∃ obj, data = some obj ∧ pyDictGet "user_input".toList obj = none) :
    generate_prompt_api true cfg provider data =
      (400, { success := false, prompt := none,
              error := some "Missing required field: user_input".toList,
              metadata := none }) ∧
    generate_prompt_api true cfg provider data =
      generate_prompt_api true cfg provider2 data := by
  have main : ∀ p : ApiRequest → Except (List Char) ProviderResponse,
      generate_prompt_api true cfg p data =
        (400, { success := false, prompt := none,
                error := some "Missing required field: user_input".toList,
                metadata := none }) := by
    intro p
    rcases h with rfl | rfl | ⟨obj, rfl, hobj⟩
    · simp [generate_prompt_api]
    · simp [generate_prompt_api]
    · have hobj' :
          pyDictGet ['u', 's', 'e', 'r', '_', 'i', 'n', 'p', 'u', 't'] obj =
            none := hobj
      by_cases hobj0 : obj = [] <;>
        simp [generate_prompt_api, hobj0, hobj']
  exact ⟨main provider, (main provider).trans (main provider2).symm⟩

theorem C4_missing_user_input_rejected_witness :
    ((some [("context".toList, "c".toList)] : JsonBody) = none ∨
     (some [("context".toList, "c".toList)] : JsonBody) = some [] ∨
     ∃ obj, (some [("context".toList, "c".toList)] : JsonBody) = some obj ∧
       pyDictGet "user_input".toList obj = none) ∧
    (generate_prompt_api true {} (fun _ => .error "net".toList)
        (some [("context".toList, "c".toList)]) =
      (400, { success := false, prompt := none,
              error := some "Missing required field: user_input".toList,
              metadata := none }) ∧
    generate_prompt_api true {} (fun _ => .error "net".toList)
        (some [("context".toList, "c".toList)]) =
      generate_prompt_api true {}
        (fun _ => .ok { content := some [], usage := none })
        (some [("context".toList, "c".toList)])) :=
  ⟨Or.inr (Or.inr ⟨_, rfl, by decide⟩),
    C4_missing_user_input_rejected {} _ _ _
      (Or.inr (Or.inr ⟨_, rfl, by decide⟩))⟩

/-- C5 (counterexample): composing with no context is claimed never to
contain `"Additional context"`, but the user input `"Additional context"`
itself makes the composed message contain it. -/
theorem C5_marker_in_user_input_counterexample :
    containsSub (build_user_message "Additional context".toList none)
      ctxPat :=
  ⟨46, by decide⟩

/-- C5 (amended): for every user input not containing the substring
`"Additional context"`, the message composed with no context never
contains that substring; and for every non-empty context also not
containing it, the composed message contains it exactly once — at the
single index two characters past the request line
`"Please create a prompt based on this request: {user_input}"`. -/
theorem C5_context_marker (u c : List Char)
    (hu : ¬ containsSub u ctxPat) (hc : ¬ containsSub c ctxPat)
    (hcne : c ≠ []) :
    ¬ containsSub (build_user_message u none) ctxPat ∧
    (∀ i, occursAt (build_user_message u (some c)) ctxPat i ↔
      i = (reqLine ++ u).length + 2) :=
  ⟨userMessage_none_not_contains hu, userMessage_some_unique hu hc hcne⟩

theorem C5_context_marker_witness :
    (¬ containsSub "draw a cat".toList ctxPat) ∧
    (¬ containsSub "dark mode".toList ctxPat) ∧
    "dark mode".toList ≠ [] ∧
    (¬ containsSub (build_user_message "draw a cat".toList none) ctxPat ∧
     (∀ i, occursAt
        (build_user_message "draw a cat".toList (some "dark mode".toList))
        ctxPat i ↔
      i = (reqLine ++ "draw a cat".toList).length + 2)) :=
  ⟨by decide, by decide, by decide,
    C5_context_marker _ _ (by decide) (by decide) (by decide)⟩

/-- C6: for every category and non-empty custom instructions, the resolved
system text is the base text, a blank line, then `"Additional instructions:
"` followed by the verbatim custom text (hence it ends with that segment);
with empty or absent custom instructions the system text is the base text
unchanged. -/
theorem C6_custom_instructions_suffix (pt ci : List Char) (h : ci ≠ []) :
    build_system_prompt pt (some ci) =
      build_system_prompt pt none ++ "\n\n".toList ++
        ("Additional instructions: ".toList ++ ci) ∧
    (∃ pre, build_system_prompt pt (some ci) =
      pre ++ ("Additional instructions: ".toList ++ ci)) ∧
    build_system_prompt pt (some []) = build_system_prompt pt none := by
  have h1 : build_system_prompt pt (some ci) =
      build_system_prompt pt none ++ "\n\n".toList ++
        ("Additional instructions: ".toList ++ ci) := by
    show (if ci = [] then (pyDictGet pt base_prompts).getD generalText
      else (pyDictGet pt base_prompts).getD generalText ++
        "\n\nAdditional instructions: ".toList ++ ci) = _
    rw [if_neg h, List.append_assoc, List.append_assoc]
    congr 1
  exact ⟨h1, ⟨build_system_prompt pt none ++ "\n\n".toList, h1⟩, rfl⟩

theorem C6_custom_instructions_suffix_witness :
    "be brief".toList ≠ [] ∧
    (build_system_prompt "creative".toList (some "be brief".toList) =
      build_system_prompt "creative".toList none ++ "\n\n".toList ++
        ("Additional instructions: ".toList ++ "be brief".toList) ∧
    (∃ pre, build_system_prompt "creative".toList (some "be brief".toList) =
      pre ++ ("Additional instructions: ".toList ++ "be brief".toList)) ∧
    build_system_prompt "creative".toList (some []) =
      build_system_prompt "creative".toList none) :=
  ⟨by decide, C6_custom_instructions_suffix _ _ (by decide)⟩

/-- C7 (counterexample): the claim says metadata is null on every Failure,
but `analyze_image_for_prompt` returns a Failure carrying a non-null
metadata dict `{"analysis_type": ...}`. -/
theorem C7_failure_metadata_counterexample :
    (analyze_image_for_prompt "photo.png".toList "detailed".toList).success
      = false ∧
    (analyze_image_for_prompt "photo.png".toList "detailed".toList).metadata
      ≠ none :=
  ⟨rfl, by simp [analyze_image_for_prompt]⟩

/-- C7 (amended): `generate_prompt` results have exactly one variant
populated — Success carries prompt text and generation metadata with no
error, Failure carries an error message with null prompt and metadata —
but `analyze_image_for_prompt` returns a Failure that nevertheless carries
a metadata object recording the analysis type. -/
theorem C7_result_variants :
    (∀ (cfg : PromptConfig)
        (provider : ApiRequest → Except (List Char) ProviderResponse)
        (u : List Char) (ctx : Option (List Char)) (pt : List Char)
        (ci : Option (List Char)),
      ((generate_prompt cfg provider u ctx pt ci).success = true →
        (generate_prompt cfg provider u ctx pt ci).error = none ∧
        (generate_prompt cfg provider u ctx pt ci).prompt.isSome = true ∧
        ∃ m, (generate_prompt cfg provider u ctx pt ci).metadata =
          some (MetaVal.gen m)) ∧
      ((generate_prompt cfg provider u ctx pt ci).success = false →
        (generate_prompt cfg provider u ctx pt ci).error.isSome = true ∧
        (generate_prompt cfg provider u ctx pt ci).prompt = none ∧
        (generate_prompt cfg provider u ctx pt ci).metadata = none)) ∧
    (∀ ip atype : List Char,
      (analyze_image_for_prompt ip atype).success = false ∧
      (analyze_image_for_prompt ip atype).error.isSome = true ∧
      (analyze_image_for_prompt ip atype).metadata =
        some (MetaVal.analysis atype)) := by
  constructor
  · intro cfg provider u ctx pt ci
    unfold generate_prompt
    cases provider (apiPayload cfg u ctx pt ci) with
    | ok resp => simp
    | error e => simp
  · intro ip atype
    exact ⟨rfl, rfl, rfl⟩

theorem C7_result_variants_witness :
    (generate_prompt {} (fun _ => .error "x".toList) "u".toList none
      "general".toList none).success = false ∧
    ((generate_prompt {} (fun _ => .error "x".toList) "u".toList none
      "general".toList none).error.isSome = true ∧
     (generate_prompt {} (fun _ => .error "x".toList) "u".toList none
      "general".toList none).prompt = none ∧
     (generate_prompt {} (fun _ => .error "x".toList) "u".toList none
      "general".toList none).metadata = none) :=
  ⟨rfl, (C7_result_variants.1 {} _ _ _ _ _).2 rfl⟩

/-- C8: a successful provider response whose content is absent or the
empty list yields a Success whose prompt is the empty string, not a
Failure. -/
theorem C8_empty_content_success (cfg : PromptConfig)
    (provider : ApiRequest → Except (List Char) ProviderResponse)
    (u : List Char) (ctx : Option (List Char)) (pt : List Char)
    (ci : Option (List Char)) (resp : ProviderResponse)
    (h : provider (apiPayload cfg u ctx pt ci) = .ok resp)
    (hc : resp.content = none ∨ resp.content = some []) :
    (generate_prompt cfg provider u ctx pt ci).success = true ∧
    (generate_prompt cfg provider u ctx pt ci).prompt = some [] := by
  unfold generate_prompt
  rw [h]
  rcases hc with hc | hc <;> simp [hc]

theorem C8_empty_content_success_witness :
    ((fun _ : ApiRequest =>
        (.ok { content := some [], usage := none } :
          Except (List Char) ProviderResponse))
      (apiPayload {} "hi".toList none "general".toList none) =
        .ok { content := some [], usage := none }) ∧
    (({ content := some [], usage := none } : ProviderResponse).content =
        none ∨
     ({ content := some [], usage := none } : ProviderResponse).content =
        some []) ∧
    ((generate_prompt {} (fun _ => .ok { content := some [], usage := none })
        "hi".toList none "general".toList none).success = true ∧
     (generate_prompt {} (fun _ => .ok { content := some [], usage := none })
        "hi".toList none "general".toList none).prompt = some []) :=
  ⟨rfl, Or.inr rfl,
    C8_empty_content_success {} _ _ _ _ _ _ rfl (Or.inr rfl)⟩

/-- C9 (counterexample): the claim demands exit code 1 on a generation
failure in every mode, but an interactive session whose one generation
fails (provider raises) still makes `main` return 0 after the user
quits. -/
theorem C9_interactive_failure_exit_counterexample :
    cli_main (some "key".toList) none none "general".toList none
      (.ok ()) {} (fun _ => .error "boom".toList)
      [⟨"make a prompt".toList, "1".toList, [], [],
          fun _ => .error "boom".toList⟩,
       ⟨"quit".toList, "1".toList, [], [],
          fun _ => .error "x".toList⟩] = 0 ∧
    (interactive_mode (.ok ()) {}
      [⟨"make a prompt".toList, "1".toList, [], [],
          fun _ => .error "boom".toList⟩,
       ⟨"quit".toList, "1".toList, [], [],
          fun _ => .error "x".toList⟩]).map GenResult.success =
      [false] :=
  ⟨rfl, rfl⟩

/-- C9 (amended): the CLI exits 1 on a missing credential in every mode,
and in single-prompt mode exits 1 on an initialization or generation
failure and 0 on success; in interactive mode, however, the exit code is 0
regardless of initialization or generation failures during the session. -/
theorem C9_exit_codes (k : List Char) (hk : k ≠ [])
    (ai : Option (List Char)) (actx : Option (List Char)) (aty : List Char)
    (ains : Option (List Char)) (initR : Except (List Char) Unit)
    (cfg : PromptConfig)
    (provider : ApiRequest → Except (List Char) ProviderResponse)
    (session : List Iteration) (e : List Char) (resp : ProviderResponse)
    (i : List Char) (hi : i ≠ []) :
    cli_main none ai actx aty ains initR cfg provider session = 1 ∧
    cli_main (some []) ai actx aty ains initR cfg provider session = 1 ∧
    cli_main (some k) (some i) actx aty ains (.error e) cfg provider
      session = 1 ∧
    cli_main (some k) (some i) actx aty ains (.ok ()) cfg
      (fun _ => .error e) session = 1 ∧
    cli_main (some k) (some i) actx aty ains (.ok ()) cfg
      (fun _ => .ok resp) session = 0 ∧
    cli_main (some k) none actx aty ains initR cfg provider session = 0 := by
  refine ⟨by simp [cli_main], by simp [cli_main], ?_, ?_, ?_, ?_⟩
  · simp [cli_main, hk, hi, single_prompt_mode]
  · simp [cli_main, hk, hi, single_prompt_mode, generate_prompt]
  · simp [cli_main, hk, hi, single_prompt_mode, generate_prompt]
  · simp [cli_main, hk]

theorem C9_exit_codes_witness :
    ("key".toList ≠ [] ∧ "hello".toList ≠ []) ∧
    (cli_main none none none "general".toList none (.ok ()) {}
        (fun _ => .error "e".toList) [] = 1 ∧
     cli_main (some []) none none "general".toList none (.ok ()) {}
        (fun _ => .error "e".toList) [] = 1 ∧
     cli_main (some "key".toList) (some "hello".toList) none
        "general".toList none (.error "e".toList) {}
        (fun _ => .error "e".toList) [] = 1 ∧
     cli_main (some "key".toList) (some "hello".toList) none
        "general".toList none (.ok ()) {}
        (fun _ => .error "e".toList) [] = 1 ∧
     cli_main (some "key".toList) (some "hello".toList) none
        "general".toList none (.ok ()) {}
        (fun _ => .ok { content := some [], usage := none }) [] = 0 ∧
     cli_main (some "key".toList) none none "general".toList none
        (.ok ()) {} (fun _ => .error "e".toList) [] = 0) :=
  ⟨⟨by decide, by decide⟩,
    C9_exit_codes "key".toList (by decide) none none "general".toList none
      (.ok ()) {} (fun _ => .error "e".toList) [] "e".toList
      { content := some [], usage := none } "hello".toList (by decide)⟩

/-- C10: a JSON body whose `user_input` key is present but the empty
string is not rejected: the handler delegates to `generate_prompt` with
`user_input = ""` (HTTP 200 around whatever the generator returns), and
the provider call is attempted — a provider error surfaces in the response
body. -/
theorem C10_empty_user_input_accepted (cfg : PromptConfig)
    (provider : ApiRequest → Except (List Char) ProviderResponse)
    (obj : List (List Char × List Char))
    (h : pyDictGet "user_input".toList obj = some []) :
    generate_prompt_api true cfg provider (some obj) =
      (200, generate_prompt cfg provider []
        (pyDictGet "context".toList obj)
        ((pyDictGet "prompt_type".toList obj).getD "general".toList)
        (pyDictGet "custom_instructions".toList obj)) ∧
    (∀ e, (generate_prompt_api true cfg (fun _ => .error e)
      (some obj)).2.error = some e) := by
  have hne : obj ≠ [] := by
    rintro rfl
    simp [pyDictGet] at h
  have h' : pyDictGet ['u', 's', 'e', 'r', '_', 'i', 'n', 'p', 'u', 't'] obj =
      some [] := h
  constructor
  · simp [generate_prompt_api, hne, h']
  · intro e
    simp [generate_prompt_api, hne, h', generate_prompt]

theorem C10_empty_user_input_accepted_witness :
    pyDictGet "user_input".toList [("user_input".toList, [])] = some [] ∧
    (generate_prompt_api true {} (fun _ => .error "neterr".toList)
        (some [("user_input".toList, [])]) =
      (200, generate_prompt {} (fun _ => .error "neterr".toList) []
        (pyDictGet "context".toList [("user_input".toList, [])])
        ((pyDictGet "prompt_type".toList
          [("user_input".toList, [])]).getD "general".toList)
        (pyDictGet "custom_instructions".toList
          [("user_input".toList, [])])) ∧
    (∀ e, (generate_prompt_api true {} (fun _ => .error e)
      (some [("user_input".toList, [])])).2.error = some e)) :=
  ⟨by decide, C10_empty_user_input_accepted {} _ _ (by decide)⟩

end PromptsGenie
